import Mathlib

/-!
Verification of the run-configuration component of libcmaes
(source file src/parameters.h, class Parameters<TGenoPheno>).

Modelling conventions, chosen to follow the C++ source line by line:
C++ int fields are modelled as ℤ, the uint64_t seed as ℕ, double values as ℝ
(the function-target field, which holds minus infinity, as EReal), Eigen dVec
vectors as List ℝ, and the std::unordered_map from int to double extensionally
as a function from ℤ to Option ℝ.  The template parameter TGenoPheno becomes a
type parameter G.  Wall-clock reads -- time(nullptr) -- are modelled by an
explicit argument named now.
-/

/-- State of the C++ class Parameters (src/parameters.h, lines 459-485),
one field per data member, with the in-source declaration order. -/
structure Parameters (G : Type) where
  _dim : ℤ
  _lambda : ℤ
  _max_iter : ℤ
  _max_fevals : ℤ
  _quiet : Bool
  _fplot : String
  _x0min : List ℝ
  _x0max : List ℝ
  _ftarget : EReal
  _ftolerance : ℝ
  _xtol : ℝ
  _seed : ℕ
  _algo : ℤ
  _with_gradient : Bool
  _with_edm : Bool
  _fixed_p : ℤ → Option ℝ
  _gp : G
  _mt_feval : Bool
  _max_hist : ℤ

variable {G : Type}

/-- set_x0(const double and x0): assigns dVec::Constant(_dim, x0) to both
_x0min and _x0max (line 76). -/
def Parameters.set_x0_scalar (x0 : ℝ) (p : Parameters G) : Parameters G :=
  { p with _x0min := List.replicate p._dim.toNat x0,
           _x0max := List.replicate p._dim.toNat x0 }

/-- set_x0(const double *x0): reads _dim entries from the array into both
_x0min and _x0max (line 85). -/
def Parameters.set_x0_ptr (x0 : ℕ → ℝ) (p : Parameters G) : Parameters G :=
  { p with _x0min := (List.range p._dim.toNat).map x0,
           _x0max := (List.range p._dim.toNat).map x0 }

/-- set_x0(const double and x0min, const double and x0max): broadcasts the two
scalars to dVec::Constant vectors (line 99). -/
def Parameters.set_x0_scalar_minmax (x0min x0max : ℝ) (p : Parameters G) : Parameters G :=
  { p with _x0min := List.replicate p._dim.toNat x0min,
           _x0max := List.replicate p._dim.toNat x0max }

/-- set_x0(const dVec and x0): stores the vector verbatim in both fields
(line 105). -/
def Parameters.set_x0_vec (x0 : List ℝ) (p : Parameters G) : Parameters G :=
  { p with _x0min := x0, _x0max := x0 }

/-- set_x0(const double *x0min, const double *x0max): reads _dim entries from
each array (line 117). -/
def Parameters.set_x0_ptr_minmax (x0min x0max : ℕ → ℝ) (p : Parameters G) : Parameters G :=
  { p with _x0min := (List.range p._dim.toNat).map x0min,
           _x0max := (List.range p._dim.toNat).map x0max }

/-- set_x0(const dVec and x0min, const dVec and x0max): stores both vectors
verbatim (line 134). -/
def Parameters.set_x0_vec_minmax (x0min x0max : List ℝ) (p : Parameters G) : Parameters G :=
  { p with _x0min := x0min, _x0max := x0max }

/-- get_x0min (line 144). -/
def Parameters.get_x0min (p : Parameters G) : List ℝ := p._x0min

/-- get_x0max (line 153). -/
def Parameters.get_x0max (p : Parameters G) : List ℝ := p._x0max

/-- set_fixed_p (line 163): performs _fixed_p.insert(pair(index, value)).
std::unordered_map::insert adds the pair only when the key is absent; when the
key is already present the map is left unchanged (no overwrite). -/
def Parameters.set_fixed_p (index : ℤ) (value : ℝ) (p : Parameters G) : Parameters G :=
  match p._fixed_p index with
  | some _ => p
  | none => { p with _fixed_p := fun j => if j = index then some value else p._fixed_p j }

/-- unset_fixed_p (line 172): erases the entry at index when find succeeds,
does nothing otherwise. -/
def Parameters.unset_fixed_p (index : ℤ) (p : Parameters G) : Parameters G :=
  match p._fixed_p index with
  | some _ => { p with _fixed_p := fun j => if j = index then none else p._fixed_p j }
  | none => p

/-- set_max_iter (line 183). -/
def Parameters.set_max_iter (maxiter : ℤ) (p : Parameters G) : Parameters G :=
  { p with _max_iter := maxiter }

/-- set_max_fevals (line 201). -/
def Parameters.set_max_fevals (fevals : ℤ) (p : Parameters G) : Parameters G :=
  { p with _max_fevals := fevals }

/-- set_ftarget (line 219). -/
def Parameters.set_ftarget (val : ℝ) (p : Parameters G) : Parameters G :=
  { p with _ftarget := (val : EReal) }

/-- reset_ftarget (line 227): restores minus infinity. -/
def Parameters.reset_ftarget (p : Parameters G) : Parameters G :=
  { p with _ftarget := ⊥ }

/-- get_ftarget (line 236). -/
def Parameters.get_ftarget (p : Parameters G) : EReal := p._ftarget

/-- set_seed (line 245): when the stored seed is still zero the caller value is
ignored and the seed is re-derived from time(nullptr), modelled by the explicit
argument now; otherwise the caller value is stored.  The C++ parameter is an
int whose value lands in the unsigned 64-bit field; it is modelled by its
non-negative value. -/
def Parameters.set_seed (now : ℕ) (seed : ℕ) (p : Parameters G) : Parameters G :=
  if p._seed = 0 then { p with _seed := now } else { p with _seed := seed }

/-- get_seed (line 256). -/
def Parameters.get_seed (p : Parameters G) : ℕ := p._seed

/-- set_ftolerance (line 267). -/
def Parameters.set_ftolerance (v : ℝ) (p : Parameters G) : Parameters G :=
  { p with _ftolerance := v }

/-- set_xtolerance (line 282). -/
def Parameters.set_xtolerance (v : ℝ) (p : Parameters G) : Parameters G :=
  { p with _xtol := v }

/-- lambda getter (line 297). -/
def Parameters.lambda (p : Parameters G) : ℤ := p._lambda

/-- dim getter (line 306). -/
def Parameters.dim (p : Parameters G) : ℤ := p._dim

/-- set_quiet (line 315). -/
def Parameters.set_quiet (quiet : Bool) (p : Parameters G) : Parameters G :=
  { p with _quiet := quiet }

/-- set_algo (line 333): stores the integer code directly. -/
def Parameters.set_algo (algo : ℤ) (p : Parameters G) : Parameters G :=
  { p with _algo := algo }

/-- The initializer list of the static member Parameters::_algos
(line 489), as written in the source: 12 name/code pairs, with sepipop and
sepbipop each listed twice. -/
def algosInit : List (String × ℤ) :=
  [("cmaes", 0), ("ipop", 1), ("bipop", 2), ("acmaes", 3), ("aipop", 4),
   ("abipop", 5), ("sepcmaes", 6), ("sepipop", 7), ("sepbipop", 8),
   ("sepacmaes", 9), ("sepipop", 10), ("sepbipop", 11)]

/-- std::map construction from an initializer list inserts the pairs one at a
time, and an insertion whose key is already present leaves the map unchanged:
the first binding of each key wins.  The association list keeps one entry per
key, in insertion order (order is irrelevant to lookup). -/
def mapOfList (l : List (String × ℤ)) : List (String × ℤ) :=
  l.foldl (fun m kv => if (m.lookup kv.1).isSome then m else m ++ [kv]) []

/-- The static registry Parameters::_algos as actually constructed from the
initializer list.  It is a model constant: nothing in the development mutates
it, matching the read-only use of the static member in the source. -/
def algos : List (String × ℤ) := mapOfList algosInit

/-- set_str_algo (line 342): finds the name in _algos; on a hit assigns the
code to _algo, on a miss leaves the object unchanged and writes a LOG(ERROR)
diagnostic line.  The emitted diagnostic lines are returned alongside the
state. -/
def Parameters.set_str_algo (algo : String) (p : Parameters G) : Parameters G × List String :=
  match algos.lookup algo with
  | some code => ({ p with _algo := code }, [])
  | none => (p, ["unknown algorithm " ++ algo])

/-- get_algo (line 354). -/
def Parameters.get_algo (p : Parameters G) : ℤ := p._algo

/-- set_gp (line 363). -/
def Parameters.set_gp (gp : G) (p : Parameters G) : Parameters G :=
  { p with _gp := gp }

/-- set_fplot (line 381). -/
def Parameters.set_fplot (fplot : String) (p : Parameters G) : Parameters G :=
  { p with _fplot := fplot }

/-- set_gradient (line 400). -/
def Parameters.set_gradient (gradient : Bool) (p : Parameters G) : Parameters G :=
  { p with _with_gradient := gradient }

/-- set_edm (line 418). -/
def Parameters.set_edm (edm : Bool) (p : Parameters G) : Parameters G :=
  { p with _with_edm := edm }

/-- set_mt_feval (line 436). -/
def Parameters.set_mt_feval (mt : Bool) (p : Parameters G) : Parameters G :=
  { p with _mt_feval := mt }

/-- set_max_hist (line 454). -/
def Parameters.set_max_hist (m : ℤ) (p : Parameters G) : Parameters G :=
  { p with _max_hist := m }

/-- The empty constructor (line 46): the member-init list sets _dim, _lambda
and _max_iter to 0, overriding the in-class default initializers of -1 for
_lambda and _max_iter; every other field keeps its in-class default
(lines 459-484): _max_fevals = -1, _quiet = false, empty _fplot, empty
vectors, _ftarget = minus infinity, both tolerances 1e-12, _seed = 0,
_algo = 0, flags false, empty _fixed_p, _max_hist = 100.  g is the
default-constructed genotype/phenotype member. -/
def emptyParameters (g : G) : Parameters G :=
  { _dim := 0, _lambda := 0, _max_iter := 0, _max_fevals := -1,
    _quiet := false, _fplot := "", _x0min := [], _x0max := [],
    _ftarget := ⊥, _ftolerance := 1e-12, _xtol := 1e-12,
    _seed := 0, _algo := 0, _with_gradient := false, _with_edm := false,
    _fixed_p := fun _ => none, _gp := g, _mt_feval := false, _max_hist := 100 }

/-- The main constructor (line 57): initializes _dim, _lambda, _seed, _gp from
the arguments and keeps the in-class defaults for the rest; then the body
resolves _lambda == -1 to 4 + floor(3.0 * log(dim)), resolves _seed == 0 from
time(nullptr) (modelled by now), and calls the pointer overload set_x0(x0). -/
noncomputable def mkParameters (dim : ℤ) (x0 : ℕ → ℝ) (lambda : ℤ) (seed : ℕ)
    (now : ℕ) (gp : G) : Parameters G :=
  let l : ℤ := if lambda = -1 then 4 + ⌊3 * Real.log (dim : ℝ)⌋ else lambda
  let s : ℕ := if seed = 0 then now else seed
  Parameters.set_x0_ptr x0
    { _dim := dim, _lambda := l, _max_iter := -1, _max_fevals := -1,
      _quiet := false, _fplot := "", _x0min := [], _x0max := [],
      _ftarget := ⊥, _ftolerance := 1e-12, _xtol := 1e-12,
      _seed := s, _algo := 0, _with_gradient := false, _with_edm := false,
      _fixed_p := fun _ => none, _gp := gp, _mt_feval := false, _max_hist := 100 }

/-- C10: the empty constructor yields dim 0, lambda 0 and maxIterations 0
(overriding the in-class -1 defaults for lambda and maxIterations, so the
no-limit sentinel does not hold for maxIterations), while maxFunctionEvaluations
stays -1, seed stays 0, the function target stays minus infinity, both
tolerances stay 1e-12, the algorithm code stays 0, maxHistorySize stays 100
and the fixed-parameter mapping is empty. -/
theorem empty_constructor_defaults (g : G) :
    (emptyParameters g)._dim = 0 ∧ (emptyParameters g)._lambda = 0 ∧
    (emptyParameters g)._max_iter = 0 ∧ (emptyParameters g)._max_iter ≠ -1 ∧
    (emptyParameters g)._lambda ≠ -1 ∧ (emptyParameters g)._max_fevals = -1 ∧
    (emptyParameters g)._seed = 0 ∧ (emptyParameters g)._ftarget = ⊥ ∧
    (emptyParameters g)._ftolerance = 1e-12 ∧ (emptyParameters g)._xtol = 1e-12 ∧
    (emptyParameters g)._algo = 0 ∧ (emptyParameters g)._max_hist = 100 ∧
    ∀ i, (emptyParameters g)._fixed_p i = none := by
  refine ⟨rfl, rfl, rfl, by simp [emptyParameters], by simp [emptyParameters],
    rfl, rfl, rfl, rfl, rfl, rfl, rfl, fun i => rfl⟩

/-- C1 counterexample: freezing index 0 to 1 and then freezing index 0 to 2
does not overwrite; the mapping still binds 0 to the first value 1, refuting
the claim that the second call stores 2. -/
theorem set_fixed_p_no_overwrite_cex :
    ((Parameters.set_fixed_p 0 2 (Parameters.set_fixed_p 0 1
        (emptyParameters ())))._fixed_p 0 ≠ some 2) ∧
    ((Parameters.set_fixed_p 0 2 (Parameters.set_fixed_p 0 1
        (emptyParameters ())))._fixed_p 0 = some 1) := by
  constructor
  · intro h
    have h1 : (1 : ℝ) = 2 := Option.some.inj h
    norm_num at h1
  · rfl

/-- C1 amended: set_fixed_p inserts a new entry when the index is absent, but
a second freeze on the same index is a no-op -- std::unordered_map::insert
keeps the stored value, so the first value wins; when the index is already
present the call leaves the whole state unchanged. -/
theorem set_fixed_p_insert_semantics (p : Parameters G) (i : ℤ) (v : ℝ) :
    (p._fixed_p i = none →
      (Parameters.set_fixed_p i v p)._fixed_p i = some v ∧
      ∀ w, (Parameters.set_fixed_p i w
              (Parameters.set_fixed_p i v p))._fixed_p i = some v) ∧
    (∀ w, p._fixed_p i = some w → Parameters.set_fixed_p i v p = p) := by
  have hpres : ∀ (q : Parameters G) (w u : ℝ), q._fixed_p i = some u →
      Parameters.set_fixed_p i w q = q := by
    intro q w u hq
    unfold Parameters.set_fixed_p
    rw [hq]
  have hins : p._fixed_p i = none →
      (Parameters.set_fixed_p i v p)._fixed_p i = some v := by
    intro hnone
    unfold Parameters.set_fixed_p
    rw [hnone]
    simp
  refine ⟨fun hnone => ⟨hins hnone, fun w => ?_⟩, fun w hsome => hpres p v w hsome⟩
  rw [hpres _ w v (hins hnone)]
  exact hins hnone

/-- C1 witness: on the empty mapping, freezing index 0 to 1 binds 0 to 1, a
second freeze to 2 still yields 1, and re-freezing a present index changes
nothing. -/
theorem set_fixed_p_insert_semantics_witness :
    (emptyParameters ())._fixed_p 0 = none ∧
    ((Parameters.set_fixed_p 0 1 (emptyParameters ()))._fixed_p 0 = some 1 ∧
     ∀ w, (Parameters.set_fixed_p 0 w (Parameters.set_fixed_p 0 1
             (emptyParameters ())))._fixed_p 0 = some 1) :=
  ⟨rfl, (set_fixed_p_insert_semantics (emptyParameters ()) 0 1).1 rfl⟩

/-- C8: freezing an index and then unfreezing it leaves the mapping without
that index; unfreezing an absent index is a no-op; and unset_fixed_p is
idempotent. -/
theorem unset_fixed_p_spec (p : Parameters G) (i : ℤ) (v : ℝ) :
    (Parameters.unset_fixed_p i (Parameters.set_fixed_p i v p))._fixed_p i = none ∧
    (p._fixed_p i = none → Parameters.unset_fixed_p i p = p) ∧
    Parameters.unset_fixed_p i (Parameters.unset_fixed_p i p) =
      Parameters.unset_fixed_p i p := by
  have hunset : ∀ (q : Parameters G) (w : ℝ), q._fixed_p i = some w →
      (Parameters.unset_fixed_p i q)._fixed_p i = none := by
    intro q w hq
    unfold Parameters.unset_fixed_p
    rw [hq]
    simp
  have hnoop : ∀ (q : Parameters G), q._fixed_p i = none →
      Parameters.unset_fixed_p i q = q := by
    intro q hq
    unfold Parameters.unset_fixed_p
    rw [hq]
  refine ⟨?_, hnoop p, ?_⟩
  · cases hp : p._fixed_p i with
    | some w =>
        have hkeep : Parameters.set_fixed_p i v p = p := by
          unfold Parameters.set_fixed_p
          rw [hp]
        rw [hkeep]
        exact hunset p w hp
    | none =>
        have hins : (Parameters.set_fixed_p i v p)._fixed_p i = some v := by
          unfold Parameters.set_fixed_p
          rw [hp]
          simp
        exact hunset _ v hins
  · cases hp : p._fixed_p i with
    | some w =>
        have h1 : (Parameters.unset_fixed_p i p)._fixed_p i = none :=
          hunset p w hp
        exact hnoop _ h1
    | none =>
        rw [hnoop p hp]
        exact hnoop p hp

/-- C8 witness: on the concrete state with index 0 frozen to 1, unfreezing
removes the entry, unfreezing the absent index 0 of the empty mapping is a
no-op, and a second unfreeze changes nothing. -/
theorem unset_fixed_p_spec_witness :
    (Parameters.unset_fixed_p 0 (Parameters.set_fixed_p 0 1
       (emptyParameters ())))._fixed_p 0 = none ∧
    ((emptyParameters ())._fixed_p 0 = none ∧
     Parameters.unset_fixed_p 0 (emptyParameters ()) = emptyParameters ()) :=
  ⟨(unset_fixed_p_spec (emptyParameters ()) 0 1).1,
   rfl, (unset_fixed_p_spec (emptyParameters ()) 0 1).2.1 rfl⟩

/-- C3 counterexample: the registry constructed from the 12-entry initializer
list has only 10 entries -- std::map discards the duplicate sepipop and
sepbipop pairs -- and its lookup maps sepipop to 7, not to 10, refuting the
claim that the lookup realizes a second entry sepipop = 10 in a 12-entry
table. -/
theorem algos_registry_cex :
    algos.length = 10 ∧ algos.length ≠ 12 ∧
    algos.lookup "sepipop" = some 7 ∧ algos.lookup "sepipop" ≠ some 10 := by
  refine ⟨rfl, by decide, rfl, ?_⟩
  intro h
  have h7 : (7 : ℤ) = 10 := Option.some.inj h
  norm_num at h7

/-- C3 amended: the initializer list of the registry has 12 entries, but the
constructed std::map keeps only the first binding of each name, so the
registry holds 10 entries whose lookup realizes cmaes = 0, ipop = 1,
bipop = 2, acmaes = 3, aipop = 4, abipop = 5, sepcmaes = 6, sepipop = 7,
sepbipop = 8, sepacmaes = 9; the duplicate sepipop = 10 and sepbipop = 11
pairs are discarded.  The registry is a constant of the model, immutable after
initialization. -/
theorem algos_registry_spec :
    algosInit.length = 12 ∧ algos.length = 10 ∧
    algos.lookup "cmaes" = some 0 ∧ algos.lookup "ipop" = some 1 ∧
    algos.lookup "bipop" = some 2 ∧ algos.lookup "acmaes" = some 3 ∧
    algos.lookup "aipop" = some 4 ∧ algos.lookup "abipop" = some 5 ∧
    algos.lookup "sepcmaes" = some 6 ∧ algos.lookup "sepipop" = some 7 ∧
    algos.lookup "sepbipop" = some 8 ∧ algos.lookup "sepacmaes" = some 9 :=
  ⟨rfl, rfl, rfl, rfl, rfl, rfl, rfl, rfl, rfl, rfl, rfl, rfl⟩

/-- C4: selecting an algorithm by a name that is not in the registry leaves
the whole state unchanged -- in particular the stored code keeps its prior
value -- and emits a diagnostic line instead of raising an error; selecting
by the registered name bipop stores code 2 and emits nothing. -/
theorem set_str_algo_spec (p : Parameters G) (s : String) (c : ℤ) :
    (p._algo = c → algos.lookup s = none →
      (Parameters.set_str_algo s p).1 = p ∧
      (Parameters.set_str_algo s p).1._algo = c ∧
      (Parameters.set_str_algo s p).2 ≠ []) ∧
    (Parameters.set_str_algo "bipop" p).1._algo = 2 ∧
    (Parameters.set_str_algo "bipop" p).2 = [] := by
  refine ⟨fun halgo hmiss => ?_, rfl, rfl⟩
  unfold Parameters.set_str_algo
  rw [hmiss]
  exact ⟨rfl, halgo, by simp⟩

/-- C4 witness: on a freshly default-constructed state (code 0), the unknown
name nonexistent changes nothing and produces a diagnostic, while bipop sets
code 2. -/
theorem set_str_algo_spec_witness :
    ((emptyParameters ())._algo = 0 ∧ algos.lookup "nonexistent" = none) ∧
    ((Parameters.set_str_algo "nonexistent" (emptyParameters ())).1 =
        emptyParameters () ∧
     (Parameters.set_str_algo "nonexistent" (emptyParameters ())).1._algo = 0 ∧
     (Parameters.set_str_algo "nonexistent" (emptyParameters ())).2 ≠ []) :=
  ⟨⟨rfl, rfl⟩, (set_str_algo_spec (emptyParameters ()) "nonexistent" 0).1 rfl rfl⟩

/-- C5: when the stored seed is zero, set_seed stores the wall-clock value and
ignores the caller value; when the stored seed is non-zero, set_seed stores
the caller value; the constructor with seed 0 derives the stored seed from
wall-clock time, and a non-zero construction seed is stored verbatim. -/
theorem set_seed_spec (p : Parameters G) (now v : ℕ) (d : ℤ) (x0 : ℕ → ℝ)
    (lam : ℤ) (sd : ℕ) (g : G) :
    (p._seed = 0 → (Parameters.set_seed now v p)._seed = now) ∧
    (p._seed ≠ 0 → (Parameters.set_seed now v p)._seed = v) ∧
    (mkParameters d x0 lam 0 now g)._seed = now ∧
    (sd ≠ 0 → (mkParameters d x0 lam sd now g)._seed = sd) := by
  refine ⟨fun h => ?_, fun h => ?_, ?_, fun h => ?_⟩
  · unfold Parameters.set_seed
    rw [if_pos h]
  · unfold Parameters.set_seed
    rw [if_neg h]
  · simp [mkParameters, Parameters.set_x0_ptr]
  · simp [mkParameters, Parameters.set_x0_ptr, h]

/-- C5 witness: a default state has seed 0, so set_seed 7 5 stores the clock
value 7 and ignores 5; on the resulting non-zero state, set_seed 9 4 stores
the caller value 4; constructing with seed 0 at clock 11 stores 11; and
constructing with seed 5 stores 5. -/
theorem set_seed_spec_witness :
    ((emptyParameters ())._seed = 0 ∧
     (Parameters.set_seed 7 5 (emptyParameters ()))._seed = 7) ∧
    ((Parameters.set_seed 7 5 (emptyParameters ()))._seed ≠ 0 ∧
     (Parameters.set_seed 9 4
        (Parameters.set_seed 7 5 (emptyParameters ())))._seed = 4) ∧
    (mkParameters 3 (fun _ => (0 : ℝ)) (-1) 0 11 ())._seed = 11 ∧
    ((5 : ℕ) ≠ 0 ∧ (mkParameters 3 (fun _ => (0 : ℝ)) (-1) 5 11 ())._seed = 5) :=
  ⟨⟨rfl, (set_seed_spec (emptyParameters ()) 7 5 3 (fun _ => 0) (-1) 5 ()).1 rfl⟩,
   ⟨by decide,
    (set_seed_spec (Parameters.set_seed 7 5 (emptyParameters ())) 9 4 3
        (fun _ => 0) (-1) 5 ()).2.1 (by decide)⟩,
   (set_seed_spec (emptyParameters ()) 11 0 3 (fun _ => 0) (-1) 5 ()).2.2.1,
   ⟨by decide,
    (set_seed_spec (emptyParameters ()) 11 0 3 (fun _ => 0) (-1) 5 ()).2.2.2
      (by decide)⟩⟩

/-- C6: each bound-setting overload stores its arguments verbatim and the
getters return exactly the vectors determined by that call alone -- the
right-hand sides depend only on the call's arguments and on the fixed
dimension, never on the previously stored bounds, so the last call in any
sequence fully determines the result, with no merging and no coercion. -/
theorem set_x0_round_trip (p : Parameters G) (a b : ℝ) (u w : List ℝ)
    (f1 f2 : ℕ → ℝ) :
    (Parameters.get_x0min (Parameters.set_x0_scalar a p) =
       List.replicate p._dim.toNat a ∧
     Parameters.get_x0max (Parameters.set_x0_scalar a p) =
       List.replicate p._dim.toNat a) ∧
    (Parameters.get_x0min (Parameters.set_x0_vec u p) = u ∧
     Parameters.get_x0max (Parameters.set_x0_vec u p) = u) ∧
    (Parameters.get_x0min (Parameters.set_x0_scalar_minmax a b p) =
       List.replicate p._dim.toNat a ∧
     Parameters.get_x0max (Parameters.set_x0_scalar_minmax a b p) =
       List.replicate p._dim.toNat b) ∧
    (Parameters.get_x0min (Parameters.set_x0_vec_minmax u w p) = u ∧
     Parameters.get_x0max (Parameters.set_x0_vec_minmax u w p) = w) ∧
    (Parameters.get_x0min (Parameters.set_x0_ptr f1 p) =
       (List.range p._dim.toNat).map f1 ∧
     Parameters.get_x0max (Parameters.set_x0_ptr f1 p) =
       (List.range p._dim.toNat).map f1) ∧
    (Parameters.get_x0min (Parameters.set_x0_ptr_minmax f1 f2 p) =
       (List.range p._dim.toNat).map f1 ∧
     Parameters.get_x0max (Parameters.set_x0_ptr_minmax f1 f2 p) =
       (List.range p._dim.toNat).map f2) :=
  ⟨⟨rfl, rfl⟩, ⟨rfl, rfl⟩, ⟨rfl, rfl⟩, ⟨rfl, rfl⟩, ⟨rfl, rfl⟩, ⟨rfl, rfl⟩⟩

/-- C7: construction stores degenerate bounds, x0min and x0max both equal to
the initial point read across the dim dimensions; the scalar overload likewise
stores equal (broadcast) bounds. -/
theorem construction_degenerate_bounds (d : ℤ) (x0 : ℕ → ℝ) (lam : ℤ)
    (sd now : ℕ) (g : G) (a : ℝ) (p : Parameters G) (hd : 0 < d) :
    (Parameters.get_x0min (mkParameters d x0 lam sd now g) =
       (List.range d.toNat).map x0 ∧
     Parameters.get_x0max (mkParameters d x0 lam sd now g) =
       (List.range d.toNat).map x0) ∧
    Parameters.get_x0min (Parameters.set_x0_scalar a p) =
      Parameters.get_x0max (Parameters.set_x0_scalar a p) :=
  ⟨⟨rfl, rfl⟩, rfl⟩

/-- C7 witness: the scenario dim 5, x0 the zero vector -- both returned bound
vectors are the zero vector of length 5. -/
theorem construction_degenerate_bounds_witness :
    0 < (5 : ℤ) ∧
    (Parameters.get_x0min (mkParameters 5 (fun _ => (0 : ℝ)) (-1) 0 1 ()) =
       (List.range (5 : ℤ).toNat).map (fun _ => (0 : ℝ)) ∧
     Parameters.get_x0max (mkParameters 5 (fun _ => (0 : ℝ)) (-1) 0 1 ()) =
       (List.range (5 : ℤ).toNat).map (fun _ => (0 : ℝ))) ∧
    (List.range (5 : ℤ).toNat).map (fun _ => (0 : ℝ)) = [0, 0, 0, 0, 0] :=
  ⟨by norm_num,
   (construction_degenerate_bounds 5 (fun _ => 0) (-1) 0 1 () 0
      (emptyParameters ()) (by norm_num)).1,
   by rfl⟩

/-- Helper: set_fixed_p touches only the fixed-parameter mapping. -/
theorem set_fixed_p_frame (i : ℤ) (v : ℝ) (p : Parameters G) :
    (Parameters.set_fixed_p i v p)._dim = p._dim ∧
    (Parameters.set_fixed_p i v p)._lambda = p._lambda := by
  unfold Parameters.set_fixed_p
  cases p._fixed_p i <;> exact ⟨rfl, rfl⟩

/-- Helper: unset_fixed_p touches only the fixed-parameter mapping. -/
theorem unset_fixed_p_frame (i : ℤ) (p : Parameters G) :
    (Parameters.unset_fixed_p i p)._dim = p._dim ∧
    (Parameters.unset_fixed_p i p)._lambda = p._lambda := by
  unfold Parameters.unset_fixed_p
  cases p._fixed_p i <;> exact ⟨rfl, rfl⟩

/-- Helper: set_seed touches only the seed in both branches. -/
theorem set_seed_frame (nw sd : ℕ) (p : Parameters G) :
    (Parameters.set_seed nw sd p)._dim = p._dim ∧
    (Parameters.set_seed nw sd p)._lambda = p._lambda := by
  unfold Parameters.set_seed
  split <;> exact ⟨rfl, rfl⟩

/-- Helper: set_str_algo touches at most the algorithm code in both branches. -/
theorem set_str_algo_frame (s : String) (p : Parameters G) :
    (Parameters.set_str_algo s p).1._dim = p._dim ∧
    (Parameters.set_str_algo s p).1._lambda = p._lambda := by
  unfold Parameters.set_str_algo
  cases algos.lookup s <;> exact ⟨rfl, rfl⟩

/-- C9: every public mutating operation other than construction leaves both
the dimension field and the population size lambda unchanged: all six set_x0
overloads, set_fixed_p, unset_fixed_p, set_max_iter, set_max_fevals,
set_ftarget, reset_ftarget, set_seed, set_ftolerance, set_xtolerance,
set_quiet, set_algo, set_str_algo, set_gp, set_fplot, set_gradient, set_edm,
set_mt_feval and set_max_hist. -/
theorem setters_preserve_dim_lambda (p : Parameters G) (a b : ℝ) (u w : List ℝ)
    (f1 f2 : ℕ → ℝ) (i n m c : ℤ) (v r : ℝ) (nw sd : ℕ) (bq : Bool)
    (s fp : String) (gp : G) :
    ((Parameters.set_x0_scalar a p)._dim = p._dim ∧
     (Parameters.set_x0_scalar a p)._lambda = p._lambda) ∧
    ((Parameters.set_x0_ptr f1 p)._dim = p._dim ∧
     (Parameters.set_x0_ptr f1 p)._lambda = p._lambda) ∧
    ((Parameters.set_x0_scalar_minmax a b p)._dim = p._dim ∧
     (Parameters.set_x0_scalar_minmax a b p)._lambda = p._lambda) ∧
    ((Parameters.set_x0_vec u p)._dim = p._dim ∧
     (Parameters.set_x0_vec u p)._lambda = p._lambda) ∧
    ((Parameters.set_x0_ptr_minmax f1 f2 p)._dim = p._dim ∧
     (Parameters.set_x0_ptr_minmax f1 f2 p)._lambda = p._lambda) ∧
    ((Parameters.set_x0_vec_minmax u w p)._dim = p._dim ∧
     (Parameters.set_x0_vec_minmax u w p)._lambda = p._lambda) ∧
    ((Parameters.set_fixed_p i v p)._dim = p._dim ∧
     (Parameters.set_fixed_p i v p)._lambda = p._lambda) ∧
    ((Parameters.unset_fixed_p i p)._dim = p._dim ∧
     (Parameters.unset_fixed_p i p)._lambda = p._lambda) ∧
    ((Parameters.set_max_iter n p)._dim = p._dim ∧
     (Parameters.set_max_iter n p)._lambda = p._lambda) ∧
    ((Parameters.set_max_fevals m p)._dim = p._dim ∧
     (Parameters.set_max_fevals m p)._lambda = p._lambda) ∧
    ((Parameters.set_ftarget r p)._dim = p._dim ∧
     (Parameters.set_ftarget r p)._lambda = p._lambda) ∧
    ((Parameters.reset_ftarget p)._dim = p._dim ∧
     (Parameters.reset_ftarget p)._lambda = p._lambda) ∧
    ((Parameters.set_seed nw sd p)._dim = p._dim ∧
     (Parameters.set_seed nw sd p)._lambda = p._lambda) ∧
    ((Parameters.set_ftolerance r p)._dim = p._dim ∧
     (Parameters.set_ftolerance r p)._lambda = p._lambda) ∧
    ((Parameters.set_xtolerance r p)._dim = p._dim ∧
     (Parameters.set_xtolerance r p)._lambda = p._lambda) ∧
    ((Parameters.set_quiet bq p)._dim = p._dim ∧
     (Parameters.set_quiet bq p)._lambda = p._lambda) ∧
    ((Parameters.set_algo c p)._dim = p._dim ∧
     (Parameters.set_algo c p)._lambda = p._lambda) ∧
    ((Parameters.set_str_algo s p).1._dim = p._dim ∧
     (Parameters.set_str_algo s p).1._lambda = p._lambda) ∧
    ((Parameters.set_gp gp p)._dim = p._dim ∧
     (Parameters.set_gp gp p)._lambda = p._lambda) ∧
    ((Parameters.set_fplot fp p)._dim = p._dim ∧
     (Parameters.set_fplot fp p)._lambda = p._lambda) ∧
    ((Parameters.set_gradient bq p)._dim = p._dim ∧
     (Parameters.set_gradient bq p)._lambda = p._lambda) ∧
    ((Parameters.set_edm bq p)._dim = p._dim ∧
     (Parameters.set_edm bq p)._lambda = p._lambda) ∧
    ((Parameters.set_mt_feval bq p)._dim = p._dim ∧
     (Parameters.set_mt_feval bq p)._lambda = p._lambda) ∧
    ((Parameters.set_max_hist n p)._dim = p._dim ∧
     (Parameters.set_max_hist n p)._lambda = p._lambda) :=
  ⟨⟨rfl, rfl⟩, ⟨rfl, rfl⟩, ⟨rfl, rfl⟩, ⟨rfl, rfl⟩, ⟨rfl, rfl⟩, ⟨rfl, rfl⟩,
   set_fixed_p_frame i v p, unset_fixed_p_frame i p, ⟨rfl, rfl⟩, ⟨rfl, rfl⟩,
   ⟨rfl, rfl⟩, ⟨rfl, rfl⟩, set_seed_frame nw sd p, ⟨rfl, rfl⟩, ⟨rfl, rfl⟩,
   ⟨rfl, rfl⟩, ⟨rfl, rfl⟩, set_str_algo_frame s p, ⟨rfl, rfl⟩, ⟨rfl, rfl⟩,
   ⟨rfl, rfl⟩, ⟨rfl, rfl⟩, ⟨rfl, rfl⟩, ⟨rfl, rfl⟩⟩

/-- Helper: upper bound on the exponential of a natural number via the decimal
upper bound on e. -/
theorem exp_nat_le_of_pow_le (n : ℕ) (q : ℝ)
    (h : (2.7182818286 : ℝ) ^ n ≤ q) : Real.exp (n : ℝ) ≤ q := by
  have he := Real.exp_nat_mul 1 n
  rw [mul_one] at he
  calc Real.exp (n : ℝ) = Real.exp 1 ^ n := he
    _ ≤ (2.7182818286 : ℝ) ^ n :=
        pow_le_pow_left (Real.exp_pos 1).le Real.exp_one_lt_d9.le n
    _ ≤ q := h

/-- Helper: lower bound on the exponential of a natural number via the decimal
lower bound on e. -/
theorem lt_exp_nat_of_lt_pow (n : ℕ) (q : ℝ)
    (h : q < (2.7182818283 : ℝ) ^ n) : q < Real.exp (n : ℝ) := by
  have he := Real.exp_nat_mul 1 n
  rw [mul_one] at he
  calc q < (2.7182818283 : ℝ) ^ n := h
    _ ≤ Real.exp 1 ^ n :=
        pow_le_pow_left (by norm_num) Real.exp_one_gt_d9.le n
    _ = Real.exp (n : ℝ) := he.symm

/-- Helper: the natural logarithm of 1000 lies in the interval from 6 to 7. -/
theorem log_thousand_bounds : (6 : ℝ) ≤ Real.log 1000 ∧ Real.log 1000 < 7 := by
  constructor
  · rw [Real.le_log_iff_exp_le (by norm_num : (0 : ℝ) < 1000)]
    have h := exp_nat_le_of_pow_le 6 1000 (by norm_num)
    simpa using h
  · rw [Real.log_lt_iff_lt_exp (by norm_num : (0 : ℝ) < 1000)]
    have h := lt_exp_nat_of_lt_pow 7 1000 (by norm_num)
    simpa using h

/-- Helper: the natural logarithm of 27000 lies in the interval from 10 to 11. -/
theorem log_27000_bounds : (10 : ℝ) ≤ Real.log 27000 ∧ Real.log 27000 < 11 := by
  constructor
  · rw [Real.le_log_iff_exp_le (by norm_num : (0 : ℝ) < 27000)]
    have h := exp_nat_le_of_pow_le 10 27000 (by norm_num)
    simpa using h
  · rw [Real.log_lt_iff_lt_exp (by norm_num : (0 : ℝ) < 27000)]
    have h := lt_exp_nat_of_lt_pow 11 27000 (by norm_num)
    simpa using h

/-- Helper: floor of 3 log 10 is 6. -/
theorem floor_three_log_ten : ⌊3 * Real.log 10⌋ = 6 := by
  have heq : 3 * Real.log 10 = Real.log 1000 := by
    rw [show (1000 : ℝ) = 10 ^ (3 : ℕ) by norm_num, Real.log_pow]
    push_cast
    ring
  rw [heq, Int.floor_eq_iff]
  refine ⟨by exact_mod_cast log_thousand_bounds.1, ?_⟩
  push_cast
  exact lt_of_lt_of_le log_thousand_bounds.2 (by norm_num)

/-- Helper: floor of 3 log 30 is 10. -/
theorem floor_three_log_thirty : ⌊3 * Real.log 30⌋ = 10 := by
  have heq : 3 * Real.log 30 = Real.log 27000 := by
    rw [show (27000 : ℝ) = 30 ^ (3 : ℕ) by norm_num, Real.log_pow]
    push_cast
    ring
  rw [heq, Int.floor_eq_iff]
  refine ⟨by exact_mod_cast log_27000_bounds.1, ?_⟩
  push_cast
  exact lt_of_lt_of_le log_27000_bounds.2 (by norm_num)

/-- Helper: with the sentinel lambda of -1, the constructor stores
4 + floor(3 log dim) as the population size. -/
theorem mk_lambda_default (d : ℤ) (x0 : ℕ → ℝ) (sd now : ℕ) (g : G) :
    (mkParameters d x0 (-1) sd now g)._lambda = 4 + ⌊3 * Real.log (d : ℝ)⌋ := by
  simp [mkParameters, Parameters.set_x0_ptr]

/-- C2 counterexample: constructing with dim 30 and the lambda sentinel
resolves lambda to 14, not 13 as the claim states: 3 log 30 is about 10.2, so
the stored value is 4 + 10 = 14. -/
theorem lambda_dim30_cex :
    (mkParameters 30 (fun _ => (0 : ℝ)) (-1) 0 1 ())._lambda = 14 ∧
    (mkParameters 30 (fun _ => (0 : ℝ)) (-1) 0 1 ())._lambda ≠ 13 := by
  have h := mk_lambda_default (G := Unit) 30 (fun _ => 0) 0 1 ()
  rw [show ((30 : ℤ) : ℝ) = (30 : ℝ) by norm_num] at h
  rw [h, floor_three_log_thirty]
  norm_num

/-- C2 amended: for every dim greater than 0, constructing with the
unspecified-lambda sentinel -1 resolves the population size to
floor(4 + 3 log dim), which is at least 1; dim 10 yields lambda 10, while dim
30 yields lambda 14 (not 13). -/
theorem lambda_default_resolution (g : G) :
    (∀ d : ℤ, 0 < d → ∀ (x0 : ℕ → ℝ) (sd now : ℕ),
      (mkParameters d x0 (-1) sd now g)._lambda =
        ⌊(4 : ℝ) + 3 * Real.log (d : ℝ)⌋ ∧
      1 ≤ (mkParameters d x0 (-1) sd now g)._lambda) ∧
    (∀ (x0 : ℕ → ℝ) (sd now : ℕ),
      (mkParameters 10 x0 (-1) sd now g)._lambda = 10 ∧
      (mkParameters 30 x0 (-1) sd now g)._lambda = 14) := by
  constructor
  · intro d hd x0 sd now
    have h := mk_lambda_default d x0 sd now g
    have hfloor : ⌊(4 : ℝ) + 3 * Real.log (d : ℝ)⌋ = 4 + ⌊3 * Real.log (d : ℝ)⌋ := by
      rw [show (4 : ℝ) = ((4 : ℤ) : ℝ) by norm_num, Int.floor_int_add]
    refine ⟨by rw [h, hfloor], ?_⟩
    rw [h]
    have hd1 : (1 : ℝ) ≤ (d : ℝ) := by exact_mod_cast (by omega : (1 : ℤ) ≤ d)
    have hlog : 0 ≤ Real.log (d : ℝ) := Real.log_nonneg hd1
    have hfl : 0 ≤ ⌊3 * Real.log (d : ℝ)⌋ :=
      Int.floor_nonneg.mpr (mul_nonneg (by norm_num) hlog)
    omega
  · intro x0 sd now
    have h10 := mk_lambda_default 10 x0 sd now g
    have h30 := mk_lambda_default 30 x0 sd now g
    rw [show ((10 : ℤ) : ℝ) = (10 : ℝ) by norm_num] at h10
    rw [show ((30 : ℤ) : ℝ) = (30 : ℝ) by norm_num] at h30
    rw [h10, h30, floor_three_log_ten, floor_three_log_thirty]
    norm_num

/-- C2 witness: at dim 10 the hypothesis 0 < 10 holds and the resolved lambda
equals floor(4 + 3 log 10) and is at least 1. -/
theorem lambda_default_resolution_witness :
    0 < (10 : ℤ) ∧
    ((mkParameters 10 (fun _ => (0 : ℝ)) (-1) 0 1 ())._lambda =
       ⌊(4 : ℝ) + 3 * Real.log ((10 : ℤ) : ℝ)⌋ ∧
     1 ≤ (mkParameters 10 (fun _ => (0 : ℝ)) (-1) 0 1 ())._lambda) :=
  ⟨by norm_num, (lambda_default_resolution ()).1 10 (by norm_num) (fun _ => 0) 0 1⟩
